import Mathlib

/-
Shallow embedding of src/app.py (SoilGrids lookup tool).

Python JSON-like values are modelled by `PyVal`; numbers (both int and
float) are modelled by `Rat`, since every numeric step of the program
(comparisons against preferred depths with a 1e-6 tolerance, division-free
extraction, float() on decimal literals) is exact on the inputs it ever
sees.  Python exceptions (AttributeError on `.get` of a non-dict,
TypeError on iterating a number, IndexError / KeyError on `[0]`) are
modelled by `Except PyErr`.  Dictionaries are association lists in
insertion order, matching Python 3.7+ dict iteration order.
-/

inductive PyVal : Type where
  | none : PyVal
  | bool : Bool → PyVal
  | num : Rat → PyVal
  | str : String → PyVal
  | list : List PyVal → PyVal
  | dict : List (String × PyVal) → PyVal

inductive PyErr : Type where
  | attributeError : PyErr
  | typeError : PyErr
  | indexError : PyErr
  | keyError : PyErr

/-- Python truthiness: None, False, 0, "", [], {} are falsy. -/
def pyTruthy : PyVal → Bool
  | .none => false
  | .bool b => b
  | .num q => decide (q ≠ 0)
  | .str s => !s.isEmpty
  | .list xs => !xs.isEmpty
  | .dict kvs => !kvs.isEmpty

/-- Test for Python None (`is None` / `is not None`). -/
def pyIsNone : PyVal → Bool
  | .none => true
  | _ => false

/-- First binding of a key in an association list (Python dict lookup). -/
def dictGet : List (String × PyVal) → String → Option PyVal
  | [], _ => Option.none
  | (k, v) :: rest, key => if k = key then some v else dictGet rest key

/-- Python `d.get(key, default)`: raises AttributeError when `d` is not a dict. -/
def pyGetD : PyVal → String → PyVal → Except PyErr PyVal
  | .dict kvs, key, dflt =>
    .ok (match dictGet kvs key with
      | some v => v
      | Option.none => dflt)
  | _, _, _ => .error .attributeError

/-- Python `d.get(key)` (default None). -/
def pyGet (v : PyVal) (key : String) : Except PyErr PyVal :=
  pyGetD v key PyVal.none

/-- Numeric value of a string of decimal digits. -/
def digitsVal (cs : List Char) : Nat :=
  cs.foldl (fun a c => a * 10 + (c.toNat - 48)) 0

def allDigits (cs : List Char) : Bool :=
  cs.all (·.isDigit)

/-- Unsigned decimal forms accepted by Python float(): "12", "12.", "12.5", ".5". -/
def parseUnsigned (cs : List Char) : Option Rat :=
  if cs.contains '.' then
    let intPart := cs.takeWhile (· ≠ '.')
    let rest := cs.dropWhile (· ≠ '.')
    match rest with
    | '.' :: fracPart =>
      if allDigits intPart && allDigits fracPart && !(intPart.isEmpty && fracPart.isEmpty)
          && !(fracPart.contains '.') then
        some ((digitsVal intPart : Rat) + (digitsVal fracPart : Rat) / ((10 : Rat) ^ fracPart.length))
      else Option.none
    | _ => Option.none
  else if allDigits cs && !cs.isEmpty then some ((digitsVal cs : Rat)) else Option.none

/-- Surrounding-whitespace strip (Python float() ignores leading and
trailing whitespace). -/
def stripWs (cs : List Char) : List Char :=
  ((cs.dropWhile (·.isWhitespace)).reverse.dropWhile (·.isWhitespace)).reverse

/-- Model of Python `float(s)` on plain decimal literals (optionally signed,
with surrounding whitespace).  Exotic accepted forms of CPython float()
(exponents, inf/nan, underscores) are not produced anywhere by this program
and are modelled as failures. -/
def parseDecimal (s : String) : Option Rat :=
  match stripWs s.toList with
  | '+' :: rest => parseUnsigned rest
  | '-' :: rest => (parseUnsigned rest).map (fun q => -q)
  | cs => parseUnsigned cs

/-- Model of Python `float(v)`: numbers pass through, booleans become 0/1,
decimal strings are parsed; anything else (None, lists, dicts) raises,
which callers of this model treat as the caught-exception branch. -/
def tryFloat : PyVal → Option Rat
  | .num q => some q
  | .bool b => some (if b then 1 else 0)
  | .str s => parseDecimal s
  | _ => Option.none

/-- Greedy match of the regex piece `\d+\.?\d*` at the head of the input;
returns (matched characters, remaining input). -/
def matchNumAt (cs : List Char) : Option (List Char × List Char) :=
  let d1 := cs.takeWhile (·.isDigit)
  let r1 := cs.dropWhile (·.isDigit)
  if d1.isEmpty then Option.none
  else
    match r1 with
    | '.' :: r2 => some (d1 ++ '.' :: r2.takeWhile (·.isDigit), r2.dropWhile (·.isDigit))
    | _ => some (d1, r1)

/-- Match of the full pattern `(\d+\.?\d*)\s*[-–]\s*(\d+\.?\d*)` anchored at
the head of the input; returns the two captured groups. -/
def matchPairAt (cs : List Char) : Option (List Char × List Char) :=
  match matchNumAt cs with
  | Option.none => Option.none
  | some (g1, r1) =>
    match r1.dropWhile (·.isWhitespace) with
    | [] => Option.none
    | c :: r3 =>
      if c = '-' ∨ c = '–' then
        match matchNumAt (r3.dropWhile (·.isWhitespace)) with
        | some (g2, _) => some (g1, g2)
        | Option.none => Option.none
      else Option.none

/-- Model of `_depth_label_re.search`: leftmost match of the depth-pair
pattern anywhere in the string. -/
def searchDepthPair : List Char → Option (List Char × List Char)
  | [] => Option.none
  | c :: rest =>
    match matchPairAt (c :: rest) with
    | some g => some g
    | Option.none => searchDepthPair rest

/-- `_try_parse_depth_from_label` from src/app.py lines 18-29. -/
def tryParseDepthFromLabel (label : PyVal) : Option (Rat × Rat) :=
  match label with
  | .str s =>
    if s.isEmpty then Option.none
    else
      match searchDepthPair s.toList with
      | some (g1, g2) =>
        match parseDecimal (String.mk g1), parseDecimal (String.mk g2) with
        | some t, some b => some (t, b)
        | _, _ => Option.none
      | Option.none => Option.none
  | _ => Option.none

/-- Python `abs` on rationals. -/
def ratAbs (q : Rat) : Rat :=
  if q < 0 then -q else q

/-- PREFERRED_DEPTHS from src/app.py line 12. -/
def PREFERRED_DEPTHS : List (Rat × Rat) :=
  [(0, 5), (0, 30), (0, 15)]

/-- `_get_top_bottom_from_range` from src/app.py lines 32-45.  The `.get`
calls raise AttributeError when the entry or a truthy `range` field is not
a dict; the try/except around the float conversions maps conversion
failures to None. -/
def getTopBottom (d : PyVal) : Except PyErr (Option (Rat × Rat)) := do
  let rng0 ← pyGet d "range"
  let rng := if pyTruthy rng0 then rng0 else .dict []
  let top1 ← pyGet rng "top"
  let bot1 ← pyGet rng "bottom"
  let tb ←
    if pyIsNone top1 || pyIsNone bot1 then do
      let td ← pyGet rng "top_depth"
      let bd ← pyGet rng "bottom_depth"
      pure (if !pyIsNone td then td else top1, if !pyIsNone bd then bd else bot1)
    else
      pure (top1, bot1)
  if !pyIsNone tb.1 && !pyIsNone tb.2 then
    match tryFloat tb.1, tryFloat tb.2 with
    | some t, some b => .ok (some (t, b))
    | _, _ => .ok Option.none
  else
    .ok Option.none

/-- Tolerance 1e-6 used by the depth matching in `_pick_depth_entry`,
written as a literal numerator/denominator pair (1/1000000 in lowest
terms) so that it evaluates by kernel reduction. -/
def depthTol : Rat := ⟨1, 1000000, by decide, Nat.coprime_one_left _⟩

/-- Boolean form of the check `abs(x - p) < 1e-6`, computed on raw
numerator/denominator pairs so that it evaluates without rational
normalization; `nearDepth_eq` below proves it equal to the literal
translation `abs (x - p) < depthTol`. -/
def nearDepth (x p : Rat) : Bool :=
  (x.num * (p.den : Int) - p.num * (x.den : Int)).natAbs * 1000000 < x.den * p.den

/-- Inner loop body of `_pick_depth_entry` (src/app.py lines 58-67): scan the
depth entries for one matching the preferred pair (pt, pb), structured
range fields first, then the free-text label. -/
def scanEntriesForPref (pt pb : Rat) : List PyVal → Except PyErr (Option PyVal)
  | [] => .ok Option.none
  | d :: rest => do
    let tb ← getTopBottom d
    let rangeHit :=
      match tb with
      | some (t, b) => nearDepth t pt && nearDepth b pb
      | Option.none => false
    if rangeHit then
      .ok (some d)
    else do
      let l1 ← pyGet d "label"
      let lbl ←
        if pyTruthy l1 then
          pure l1
        else do
          let l2 ← pyGet d "depth_label"
          pure (if pyTruthy l2 then l2 else PyVal.str "")
      let labelHit :=
        match tryParseDepthFromLabel lbl with
        | some (t, b) => nearDepth t pt && nearDepth b pb
        | Option.none => false
      if labelHit then .ok (some d) else scanEntriesForPref pt pb rest

/-- Outer loop of `_pick_depth_entry` (src/app.py lines 57-67): iterate the
preferred pairs in order, stopping at the first entry match. -/
def scanPrefs : List (Rat × Rat) → List PyVal → Except PyErr (Option PyVal)
  | [], _ => .ok Option.none
  | (pt, pb) :: rest, ds => do
    match ← scanEntriesForPref pt pb ds with
    | some d => .ok (some d)
    | Option.none => scanPrefs rest ds

/-- Sort key of the fallback in `_pick_depth_entry` line 71: the structured
top when parseable, else the sentinel 9999.0. -/
def depthSortKey (x : PyVal) : Except PyErr Rat := do
  match ← getTopBottom x with
  | some tb => .ok tb.1
  | Option.none => .ok 9999

/-- Keys of all entries, computed in order (CPython `sorted` with a `key`
function precomputes every key; an exception from any key computation
aborts the sort). -/
def computeKeys : List PyVal → Except PyErr (List (Rat × PyVal))
  | [] => .ok []
  | x :: rest => do
    let k ← depthSortKey x
    let ks ← computeKeys rest
    .ok ((k, x) :: ks)

/-- Stable insertion: an element goes before the first strictly greater key,
after equal keys, matching the stability of Python `sorted`. -/
def insertSorted (p : Rat × PyVal) : List (Rat × PyVal) → List (Rat × PyVal)
  | [] => [p]
  | q :: rest => if p.1 ≤ q.1 then p :: q :: rest else q :: insertSorted p rest

/-- Stable sort by key, modelling Python `sorted(..., key=...)`. -/
def sortKeyed (l : List (Rat × PyVal)) : List (Rat × PyVal) :=
  l.foldr insertSorted []

/-- Python iteration `for d in depths`: lists yield elements, strings yield
one-character strings, dicts yield their keys; other values raise TypeError. -/
def pyIter : PyVal → Except PyErr (List PyVal)
  | .list xs => .ok xs
  | .str s => .ok (s.toList.map (fun c => .str (String.mk [c])))
  | .dict kvs => .ok (kvs.map (fun kv => .str kv.1))
  | _ => .error .typeError

/-- Python `depths[0]` on an arbitrary value. -/
def pyIndex0 : PyVal → Except PyErr PyVal
  | .list [] => .error .indexError
  | .list (x :: _) => .ok x
  | .str s =>
    match s.toList with
    | [] => .error .indexError
    | c :: _ => .ok (.str (String.mk [c]))
  | .dict _ => .error .keyError
  | _ => .error .typeError

/-- `_pick_depth_entry` from src/app.py lines 48-74: preferred-depth scan,
then the sorted-by-top fallback; the bare `except` around the sort returns
`depths[0]` when a key computation raises. -/
def pickDepthEntry (depths : PyVal) : Except PyErr (Option PyVal) :=
  if !pyTruthy depths then .ok Option.none
  else do
    let ds ← pyIter depths
    match ← scanPrefs PREFERRED_DEPTHS ds with
    | some d => .ok (some d)
    | Option.none =>
      match computeKeys ds with
      | .ok keyed =>
        match (sortKeyed keyed).head? with
        | some p => .ok (some p.2)
        | Option.none => do
          let x ← pyIndex0 depths
          .ok (some x)
      | .error _ => do
        let x ← pyIndex0 depths
        .ok (some x)

/-- Preference order of statistic names, src/app.py line 82. -/
def preferKeys : List String :=
  ["mean", "Q0.5", "median", "Q0.05", "Q0.95"]

/-- Preferred-keys loop of `_extract_numeric_from_values` (lines 83-89):
skip absent or None entries, and entries whose float() conversion fails. -/
def preferScan : List String → List (String × PyVal) → Option Rat
  | [], _ => Option.none
  | k :: rest, kvs =>
    match dictGet kvs k with
    | some v =>
      if pyIsNone v then preferScan rest kvs
      else
        match tryFloat v with
        | some q => some q
        | Option.none => preferScan rest kvs
    | Option.none => preferScan rest kvs

/-- Fallback loop of `_extract_numeric_from_values` (lines 91-97): first
non-None entry, in stored order, whose float() conversion succeeds. -/
def fallbackScan : List (String × PyVal) → Option Rat
  | [] => Option.none
  | (_, v) :: rest =>
    if pyIsNone v then fallbackScan rest
    else
      match tryFloat v with
      | some q => some q
      | Option.none => fallbackScan rest

/-- `_extract_numeric_from_values` from src/app.py lines 77-98. -/
def extractNumeric (values : PyVal) : Option Rat :=
  match values with
  | .dict kvs =>
    match preferScan preferKeys kvs with
    | some q => some q
    | Option.none => fallbackScan kvs
  | _ => Option.none

/-- `_extract_unit` from src/app.py lines 101-105: the lazy `or` chain
`um.get("mapped_units") or um.get("target_units") or um.get("unit")`. -/
def extractUnit (layer : PyVal) : Except PyErr PyVal := do
  let um0 ← pyGet layer "unit_measure"
  let um := if pyTruthy um0 then um0 else .dict []
  let a ← pyGet um "mapped_units"
  if pyTruthy a then .ok a
  else do
    let b ← pyGet um "target_units"
    if pyTruthy b then .ok b
    else pyGet um "unit"

/-- `_extract_unit(layer_obj) if isinstance(layer_obj, dict) else None`
(src/app.py lines 157 and 161). -/
def unitIfDict : PyVal → Except PyErr PyVal
  | .dict kvs => extractUnit (.dict kvs)
  | _ => .ok PyVal.none

/-- Scan of a list-shaped "layers" collection (src/app.py lines 143-146):
first dict item whose "name" equals the requested property code. -/
def locateScan : List PyVal → String → PyVal
  | [], _ => PyVal.none
  | item :: rest, prop =>
    match item with
    | .dict kvs =>
      if (match dictGet kvs "name" with
          | some (.str s) => s == prop
          | _ => false) then
        .dict kvs
      else locateScan rest prop
    | _ => locateScan rest prop

/-- Layer location, src/app.py lines 137-149: dict-shaped collections by
direct lookup, list-shaped by name scan, anything else yields None. -/
def locateLayer (layers : PyVal) (prop : String) : PyVal :=
  match layers with
  | .dict kvs =>
    (match dictGet kvs prop with
      | some v => v
      | Option.none => PyVal.none)
  | .list items => locateScan items prop
  | _ => PyVal.none

/-- Outcome of one outbound HTTP call: a raised requests.RequestException,
or a response with a status code, raw text, and JSON-parse outcome. -/
inductive HttpResult : Type where
  | exn : String → HttpResult
  | resp : Nat → String → Except String PyVal → HttpResult

/-- Query parameters built by `fetch_property_for_point`, lines 113-121. -/
structure Request : Type where
  lat : Rat
  lon : Rat
  property : String
  depth_intervals : String
  value : String

/-- The request issued for one property at one point. -/
def mkRequest (lat lon : Rat) (prop : String) : Request :=
  ⟨lat, lon, prop, "0-5", "mean"⟩

/-- `fetch_property_for_point` from src/app.py lines 108-166, with the
transport abstracted as the `HttpResult` argument (the issued request is
`mkRequest`; see `fetchLoop`).  Returns (value, unit, raw). -/
def fetchPropertyForPoint (r : HttpResult) (prop : String) :
    Except PyErr (Option Rat × PyVal × PyVal) :=
  match r with
  | .exn msg => .ok (Option.none, PyVal.none, .dict [("error", .str msg)])
  | .resp status text body =>
    if status ≠ 200 then
      .ok (Option.none, PyVal.none,
        .dict [("error", .str ("status " ++ toString status)), ("text", .str text)])
    else
      match body with
      | .error emsg =>
        .ok (Option.none, PyVal.none, .dict [("error", .str ("invalid json: " ++ emsg))])
      | .ok data => do
        let props ← pyGetD data "properties" (.dict [])
        let layers ← pyGet props "layers"
        let layerObj := locateLayer layers prop
        if !pyTruthy layerObj then
          .ok (Option.none, PyVal.none, data)
        else do
          let d0 ← pyGetD layerObj "depths" (.list [])
          let depths := if pyTruthy d0 then d0 else .list []
          if !pyTruthy depths then do
            let u ← unitIfDict layerObj
            .ok (Option.none, u, layerObj)
          else do
            let chosen ← pickDepthEntry depths
            match chosen with
            | Option.none => do
              let u ← unitIfDict layerObj
              .ok (Option.none, u, layerObj)
            | some c =>
              if !pyTruthy c then do
                let u ← unitIfDict layerObj
                .ok (Option.none, u, layerObj)
              else do
                let v0 ← pyGetD c "values" (.dict [])
                let values := if pyTruthy v0 then v0 else .dict []
                let numeric := extractNumeric values
                let unit ← extractUnit layerObj
                .ok (numeric, unit, layerObj)

/-- PROPERTIES from src/app.py line 10. -/
def PROPERTIES : List String :=
  ["soc", "phh2o", "sand", "silt", "clay", "bdod", "ocs"]

/-- One row of the orchestrator output: {"value": ..., "unit": ..., "raw": ...}. -/
structure PropRecord : Type where
  value : Option Rat
  unit : PyVal
  raw : PyVal

/-- Loop body of `fetch_soil_data_all` (lines 175-177): one request per
property code, in order; also returns the trace of issued requests.  An
uncaught exception from `fetch_property_for_point` aborts the loop. -/
def fetchLoop (net : Request → HttpResult) (lat lon : Rat) :
    List String → Except PyErr (List (String × PropRecord)) × List Request
  | [] => (.ok [], [])
  | p :: rest =>
    let req := mkRequest lat lon p
    match fetchPropertyForPoint (net req) p with
    | .error e => (.error e, [req])
    | .ok (v, u, raw) =>
      let tail := fetchLoop net lat lon rest
      (match tail.1 with
        | .ok out => .ok ((p, ⟨v, u, raw⟩) :: out)
        | .error e => .error e,
       req :: tail.2)

/-- `fetch_soil_data_all` from src/app.py lines 169-178, paired with the
trace of requests it issues.  The aggregate error component of the source
is the literal `None` on line 178. -/
def fetchSoilDataAll (net : Request → HttpResult) (lat lon : Rat) :
    Except PyErr (List (String × PropRecord) × Option String) × List Request :=
  match fetchLoop net lat lon PROPERTIES with
  | (.ok out, tr) => (.ok (out, Option.none), tr)
  | (.error e, tr) => (.error e, tr)

/-- First element of a keyed list attaining the minimal key (ties resolved
to the earliest element), used to state what `sorted(...)[0]` selects. -/
def firstMinKey : List (Rat × PyVal) → Option (Rat × PyVal)
  | [] => Option.none
  | p :: rest =>
    some (match firstMinKey rest with
      | Option.none => p
      | some q => if p.1 ≤ q.1 then p else q)

/-- Python `d.get(k)` restricted to an association list (total form used in
statements about dict-shaped inputs). -/
def mgetU (kvs : List (String × PyVal)) (k : String) : PyVal :=
  match dictGet kvs k with
  | some v => v
  | Option.none => PyVal.none

/-- Shape test `isinstance(v, dict)`. -/
def isMapV : PyVal → Bool
  | .dict _ => true
  | _ => false

/-- Shape test `isinstance(v, list)`. -/
def isListV : PyVal → Bool
  | .list _ => true
  | _ => false

/-- Depth entry {range: {top: 0, bottom: 30}, values: {mean: 10}} of the
spec's depth-selection example. -/
def c4entry1 : PyVal :=
  .dict [("range", .dict [("top", .num 0), ("bottom", .num 30)]),
         ("values", .dict [("mean", .num 10)])]

/-- Depth entry {range: {top: 0, bottom: 5}, values: {mean: 20}} of the
spec's depth-selection example. -/
def c4entry2 : PyVal :=
  .dict [("range", .dict [("top", .num 0), ("bottom", .num 5)]),
         ("values", .dict [("mean", .num 20)])]

/-- A soc layer carrying a unit descriptor with a scale factor `f` and a
single 0-5cm depth entry with raw mean `q`. -/
def scaleLayer (f q : Rat) : PyVal :=
  .dict [("unit_measure", .dict [("mapped_units", .str "dg/kg"), ("scale_factor", .num f)]),
         ("depths", .list [.dict [("range", .dict [("top", .num 0), ("bottom", .num 5)]),
                                  ("values", .dict [("mean", .num q)])]])]

/-- A 200 response whose body carries `scaleLayer f q` keyed by "soc". -/
def scaleResp (f q : Rat) : HttpResult :=
  .resp 200 "" (.ok (.dict [("properties", .dict [("layers", .dict [("soc", scaleLayer f q)])])]))

/-- A well-formed layer with a 0-5cm depth entry (mean 150) and a unit. -/
def goodLayer : PyVal :=
  .dict [("unit_measure", .dict [("mapped_units", .str "dg/kg")]),
         ("depths", .list [.dict [("range", .dict [("top", .num 0), ("bottom", .num 5)]),
                                  ("values", .dict [("mean", .num 150)])]])]

/-- A network on which every request fully succeeds: status 200 and a body
whose "layers" mapping carries `goodLayer` under the requested property. -/
def netGood : Request → HttpResult := fun req =>
  .resp 200 "" (.ok (.dict [("properties", .dict [("layers", .dict [(req.property, goodLayer)])])]))

/-- A network on which every request raises a transport exception. -/
def netExn : Request → HttpResult := fun _ => .exn "boom"

/-- A network on which every request returns status 200 with the JSON body
`[]` (parsed successfully, but not an object). -/
def netArrayBody : Request → HttpResult := fun _ => .resp 200 "" (.ok (.list []))

/-- Depth entry with structured range 50-60 (matches no preferred pair). -/
def c7entryA : PyVal :=
  .dict [("range", .dict [("top", .num 50), ("bottom", .num 60)]),
         ("values", .dict [("mean", .num 1)])]

/-- Depth entry with structured range 40-45 (matches no preferred pair). -/
def c7entryB : PyVal :=
  .dict [("range", .dict [("top", .num 40), ("bottom", .num 45)]),
         ("values", .dict [("mean", .num 2)])]

/-- A layer object as it appears inside a list-shaped "layers" collection. -/
def c9obj : List (String × PyVal) :=
  [("name", .str "soc"), ("depths", .list [])]

theorem exceptBindOk {ε α β : Type} (a : α) (f : α → Except ε β) :
    (Except.ok a >>= f) = f a := rfl

theorem exceptBindErr {ε α β : Type} (e : ε) (f : α → Except ε β) :
    ((Except.error e : Except ε α) >>= f) = Except.error e := rfl

theorem ratAbs_eq_abs (q : Rat) : ratAbs q = |q| := by
  unfold ratAbs
  split
  · rw [abs_of_neg]; assumption
  · rw [abs_of_nonneg]; exact le_of_not_lt (by assumption)

theorem depthTol_eq : depthTol = 1 / 1000000 := by
  have h := Rat.num_div_den depthTol
  have hn : (depthTol.num : ℚ) = 1 := by norm_num [depthTol]
  have hd : (depthTol.den : ℚ) = 1000000 := by norm_num [depthTol]
  rw [hn, hd] at h
  exact h.symm

theorem nearDepth_eq (x p : Rat) :
    nearDepth x p = decide (ratAbs (x - p) < depthTol) := by
  unfold nearDepth
  rw [decide_eq_decide, ratAbs_eq_abs, depthTol_eq]
  have hxd : (0:ℚ) < (x.den : ℚ) := by exact_mod_cast Nat.pos_of_ne_zero x.den_nz
  have hpd : (0:ℚ) < (p.den : ℚ) := by exact_mod_cast Nat.pos_of_ne_zero p.den_nz
  have hD : (0:ℚ) < (x.den : ℚ) * (p.den : ℚ) := mul_pos hxd hpd
  have hx : (x : ℚ) = (x.num : ℚ) / (x.den : ℚ) := (Rat.num_div_den x).symm
  have hp : (p : ℚ) = (p.num : ℚ) / (p.den : ℚ) := (Rat.num_div_den p).symm
  have key : x - p = ((x.num * (p.den : Int) - p.num * (x.den : Int) : Int) : ℚ)
      / ((x.den : ℚ) * (p.den : ℚ)) := by
    conv_lhs => rw [hx, hp]
    push_cast
    rw [div_sub_div _ _ (ne_of_gt hxd) (ne_of_gt hpd)]
    ring_nf
  rw [key, abs_div, abs_of_pos hD, div_lt_div_iff₀ hD (by norm_num : (0:ℚ) < 1000000), one_mul]
  constructor
  · intro h; zify at h; exact_mod_cast h
  · intro h; zify; exact_mod_cast h

theorem pyGet_dict (kvs : List (String × PyVal)) (k : String) :
    pyGet (.dict kvs) k = .ok (mgetU kvs k) := rfl

theorem pyIsNone_iff (v : PyVal) : pyIsNone v = true ↔ v = PyVal.none := by
  cases v <;> simp [pyIsNone]

theorem scanPrefs_nil (prefs : List (Rat × Rat)) :
    scanPrefs prefs ([] : List PyVal) = .ok Option.none := by
  induction prefs with
  | nil => rfl
  | cons pr rest ih => obtain ⟨pt, pb⟩ := pr; exact ih

theorem preferScan_none (ks : List String) (kvs : List (String × PyVal))
    (h : ∀ k ∈ ks, ∀ v, dictGet kvs k = some v → tryFloat v = Option.none) :
    preferScan ks kvs = Option.none := by
  induction ks with
  | nil => rfl
  | cons k rest ih =>
    have hrest : ∀ k2 ∈ rest, ∀ v, dictGet kvs k2 = some v → tryFloat v = Option.none :=
      fun k2 hk2 => h k2 (List.mem_cons_of_mem _ hk2)
    cases hg : dictGet kvs k with
    | none => simp [preferScan, hg, ih hrest]
    | some v =>
      have hv := h k (List.mem_cons_self k rest) v hg
      cases hn : pyIsNone v with
      | true => simp [preferScan, hg, hn, ih hrest]
      | false => simp [preferScan, hg, hn, hv, ih hrest]

theorem insertSorted_head (p : Rat × PyVal) (s : List (Rat × PyVal)) :
    (insertSorted p s).head? = some (match s.head? with
      | Option.none => p
      | some q => if p.1 ≤ q.1 then p else q) := by
  cases s with
  | nil => rfl
  | cons q rest =>
    by_cases h : p.1 ≤ q.1
    · simp [insertSorted, h]
    · simp [insertSorted, h]

theorem sortKeyed_head (l : List (Rat × PyVal)) :
    (sortKeyed l).head? = firstMinKey l := by
  induction l with
  | nil => rfl
  | cons p rest ih =>
    simp only [sortKeyed, List.foldr] at ih ⊢
    rw [insertSorted_head, ih]
    rfl

theorem firstMinKey_min (l : List (Rat × PyVal)) :
    ∀ p, firstMinKey l = some p → p ∈ l ∧ ∀ q ∈ l, p.1 ≤ q.1 := by
  induction l with
  | nil => intro p h; simp [firstMinKey] at h
  | cons a rest ih =>
    intro p h
    simp only [firstMinKey] at h
    cases hr : firstMinKey rest with
    | none =>
      rw [hr] at h
      cases rest with
      | nil =>
        simp at h
        subst h
        exact ⟨List.mem_singleton_self a, by intro q hq; simp at hq; subst hq; exact le_refl _⟩
      | cons b bs => simp [firstMinKey] at hr
    | some m =>
      rw [hr] at h
      simp at h
      obtain ⟨hm, hmin⟩ := ih m hr
      by_cases hle : a.1 ≤ m.1
      · rw [if_pos hle] at h
        subst h
        refine ⟨List.mem_cons_self _ _, ?_⟩
        intro q hq
        rcases List.mem_cons.mp hq with hqa | hqr
        · subst hqa; exact le_refl _
        · exact le_trans hle (hmin q hqr)
      · rw [if_neg hle] at h
        subst h
        refine ⟨List.mem_cons_of_mem _ hm, ?_⟩
        intro q hq
        rcases List.mem_cons.mp hq with hqa | hqr
        · subst hqa; exact le_of_lt (lt_of_not_le hle)
        · exact hmin q hqr

theorem computeKeys_cons (x : PyVal) (xs : List PyVal) (keyed : List (Rat × PyVal))
    (h : computeKeys (x :: xs) = .ok keyed) : ∃ k ks, keyed = (k, x) :: ks := by
  simp only [computeKeys] at h
  cases hk : depthSortKey x with
  | error e => rw [hk, exceptBindErr] at h; simp at h
  | ok k =>
    rw [hk, exceptBindOk] at h
    cases hks : computeKeys xs with
    | error e => rw [hks, exceptBindErr] at h; simp at h
    | ok ks =>
      rw [hks, exceptBindOk] at h
      simp at h
      exact ⟨k, ks, h.symm⟩

theorem locateScan_none (prop : String) (items : List PyVal)
    (h : ∀ kvs, PyVal.dict kvs ∈ items → dictGet kvs "name" ≠ some (.str prop)) :
    locateScan items prop = PyVal.none := by
  induction items with
  | nil => rfl
  | cons item rest ih =>
    have hrest : ∀ kvs, PyVal.dict kvs ∈ rest → dictGet kvs "name" ≠ some (.str prop) :=
      fun kvs hk => h kvs (List.mem_cons_of_mem _ hk)
    cases item with
    | dict kvs =>
      have hne := h kvs (List.mem_cons_self _ _)
      cases hg : dictGet kvs "name" with
      | none => simp [locateScan, hg, ih hrest]
      | some v =>
        cases v with
        | str s =>
          cases hb : s == prop with
          | true =>
            exact absurd (by rw [hg, beq_iff_eq.mp hb]) hne
          | false => simp [locateScan, hg, hb, ih hrest]
        | none => simp [locateScan, hg, ih hrest]
        | bool b => simp [locateScan, hg, ih hrest]
        | num q => simp [locateScan, hg, ih hrest]
        | list xs => simp [locateScan, hg, ih hrest]
        | dict kvs2 => simp [locateScan, hg, ih hrest]
    | none => simp [locateScan, ih hrest]
    | bool b => simp [locateScan, ih hrest]
    | num q => simp [locateScan, ih hrest]
    | str s => simp [locateScan, ih hrest]
    | list xs => simp [locateScan, ih hrest]

theorem fetchLoop_keys (net : Request → HttpResult) (lat lon : Rat) :
    ∀ (ps : List String) (out : List (String × PropRecord)),
      (fetchLoop net lat lon ps).1 = .ok out → out.map Prod.fst = ps := by
  intro ps
  induction ps with
  | nil =>
    intro out h
    simp only [fetchLoop] at h
    simp at h
    subst h
    rfl
  | cons p rest ih =>
    intro out h
    simp only [fetchLoop] at h
    cases hfp : fetchPropertyForPoint (net (mkRequest lat lon p)) p with
    | error e => rw [hfp] at h; simp at h
    | ok tup =>
      obtain ⟨v, u, raw⟩ := tup
      rw [hfp] at h
      cases ht : (fetchLoop net lat lon rest).1 with
      | error e => rw [ht] at h; simp at h
      | ok out2 =>
        rw [ht] at h
        simp at h
        rw [← h]
        simp [ih out2 ht]

theorem fetchLoop_trace_ok (net : Request → HttpResult) (lat lon : Rat) :
    ∀ (ps : List String) (out : List (String × PropRecord)),
      (fetchLoop net lat lon ps).1 = .ok out →
      (fetchLoop net lat lon ps).2 = ps.map (mkRequest lat lon) := by
  intro ps
  induction ps with
  | nil => intro out h; rfl
  | cons p rest ih =>
    intro out h
    simp only [fetchLoop] at h ⊢
    cases hfp : fetchPropertyForPoint (net (mkRequest lat lon p)) p with
    | error e => rw [hfp] at h; simp at h
    | ok tup =>
      obtain ⟨v, u, raw⟩ := tup
      rw [hfp] at h
      simp at h ⊢
      cases ht : (fetchLoop net lat lon rest).1 with
      | error e2 => rw [ht] at h; simp at h
      | ok out2 =>
        exact ih out2 ht

theorem fetchLoop_trace_prefix (net : Request → HttpResult) (lat lon : Rat) :
    ∀ ps : List String,
      (fetchLoop net lat lon ps).2 <+: ps.map (mkRequest lat lon) := by
  intro ps
  induction ps with
  | nil => exact List.prefix_refl _
  | cons p rest ih =>
    simp only [fetchLoop]
    cases hfp : fetchPropertyForPoint (net (mkRequest lat lon p)) p with
    | error e =>
      simp only [List.map_cons]
      exact ⟨List.map (mkRequest lat lon) rest, rfl⟩
    | ok tup =>
      obtain ⟨v, u, raw⟩ := tup
      simp only [List.map_cons]
      exact (List.prefix_cons_inj _).mpr ih

/-- Claim C1 counterexample: for a layer whose unit descriptor carries
scale_factor = 10 and whose selected raw statistic is 150, the code returns
150.0, not 150/10 = 15.0 — `fetch_property_for_point` never reads any scale
factor and performs no division. -/
theorem c1_counterexample :
    fetchPropertyForPoint (scaleResp 10 150) "soc" =
      .ok (some 150, .str "dg/kg", scaleLayer 10 150) ∧ (150 : Rat) ≠ 15 :=
  ⟨rfl, by norm_num⟩

/-- Claim C1 (amended): the extracted value is the raw selected statistic
unchanged — no scale-factor division ever happens.  For every scale factor
f and raw mean q on the layer's unit descriptor, the value component
equals q, independent of f. -/
theorem c1_amended (f q : Rat) :
    fetchPropertyForPoint (scaleResp f q) "soc" =
      .ok (some q, .str "dg/kg", scaleLayer f q) := rfl

/-- Claim C2 counterexample: when an upstream call returns status 200 with
the successfully parsed non-object body `[]`, the orchestrator raises an
uncaught AttributeError, so the caller receives no result mapping at all —
the mapping is not complete "regardless of how many upstream calls
failed". -/
theorem c2_counterexample :
    (fetchSoilDataAll netArrayBody 0 0).1 = .error .attributeError := rfl

/-- Claim C2 (amended): whenever orchestration completes (returns instead
of raising), the mapping holds exactly one record per requested property
code, in order, with no key omitted and none added; completion itself is
not guaranteed for every upstream body (see the counterexample). -/
theorem c2_amended (net : Request → HttpResult) (lat lon : Rat)
    (out : List (String × PropRecord)) (e : Option String)
    (h : (fetchSoilDataAll net lat lon).1 = .ok (out, e)) :
    out.map Prod.fst = PROPERTIES ∧ (out.map Prod.fst).Nodup := by
  have hk : out.map Prod.fst = PROPERTIES := by
    rcases hl : fetchLoop net lat lon PROPERTIES with ⟨r, tr⟩
    cases r with
    | ok o =>
      have h1 : (fetchLoop net lat lon PROPERTIES).1 = .ok o := by rw [hl]
      simp [fetchSoilDataAll, hl] at h
      rw [← h.1]
      exact fetchLoop_keys net lat lon PROPERTIES o h1
    | error e2 => simp [fetchSoilDataAll, hl] at h
  exact ⟨hk, by rw [hk]; decide⟩

/-- Claim C2 witness: under a network where every call raises a transport
exception, the orchestrator still returns one record per property code. -/
theorem c2_amended_witness :
    ((PROPERTIES.map (fun p => (p, PropRecord.mk Option.none PyVal.none
        (PyVal.dict [("error", PyVal.str "boom")])))).map Prod.fst = PROPERTIES) ∧
    ((PROPERTIES.map (fun p => (p, PropRecord.mk Option.none PyVal.none
        (PyVal.dict [("error", PyVal.str "boom")])))).map Prod.fst).Nodup :=
  c2_amended netExn 0 0 _ Option.none rfl

/-- Claim C3 counterexample: a successfully parsed non-object body (the
JSON array `[]`) makes the per-property fetch raise an uncaught
AttributeError at `data.get("properties", {})` instead of returning a
value-absent result. -/
theorem c3_counterexample :
    fetchPropertyForPoint (.resp 200 "" (.ok (.list []))) "soc" =
      .error .attributeError := rfl

/-- Claim C3 (amended): transport exceptions, non-success status codes, and
JSON-parse failures are each downgraded locally to a value-absent result
and never raise; but a successfully parsed non-object body is not covered
(see the counterexample). -/
theorem c3_amended :
    (∀ msg prop, fetchPropertyForPoint (.exn msg) prop =
      .ok (Option.none, PyVal.none, .dict [("error", .str msg)])) ∧
    (∀ status text body prop, status ≠ 200 →
      fetchPropertyForPoint (.resp status text body) prop =
        .ok (Option.none, PyVal.none,
          .dict [("error", .str ("status " ++ toString status)), ("text", .str text)])) ∧
    (∀ emsg text prop, fetchPropertyForPoint (.resp 200 text (.error emsg)) prop =
      .ok (Option.none, PyVal.none, .dict [("error", .str ("invalid json: " ++ emsg))])) := by
  refine ⟨fun msg prop => rfl, ?_, fun emsg text prop => rfl⟩
  intro status text body prop h
  simp only [fetchPropertyForPoint]
  rw [if_pos h]

/-- Claim C3 witness: each handled failure class at a concrete input. -/
theorem c3_amended_witness :
    fetchPropertyForPoint (.exn "boom") "soc" =
      .ok (Option.none, PyVal.none, .dict [("error", .str "boom")]) ∧
    fetchPropertyForPoint (.resp 500 "oops" (.ok (.dict []))) "soc" =
      .ok (Option.none, PyVal.none,
        .dict [("error", .str ("status " ++ toString 500)), ("text", .str "oops")]) ∧
    fetchPropertyForPoint (.resp 200 "" (.error "bad")) "soc" =
      .ok (Option.none, PyVal.none, .dict [("error", .str ("invalid json: " ++ "bad"))]) :=
  ⟨c3_amended.1 "boom" "soc",
   c3_amended.2.1 500 "oops" (.ok (.dict [])) "soc" (by norm_num),
   c3_amended.2.2 "bad" "" "soc"⟩

/-- Claim C4: depth selection iterates the preferred pairs in order,
scanning all entries per pair with tolerance 1e-6 (structured range first,
then label) and stopping at the first success; on the spec's example
[(0,30,mean 10), (0,5,mean 20)] with preferred depths [(0,5),(0,30)] the
0-5 entry is selected and its value is 20, not 10. -/
theorem c4_selection :
    (∀ t p : Rat, nearDepth t p = true ↔ ratAbs (t - p) < depthTol) ∧
    depthTol = 1 / 1000000 ∧
    (∀ ds d, scanPrefs PREFERRED_DEPTHS ds = .ok (some d) →
      pickDepthEntry (.list ds) = .ok (some d)) ∧
    scanPrefs [(0, 5), (0, 30)] [c4entry1, c4entry2] = .ok (some c4entry2) ∧
    pickDepthEntry (.list [c4entry1, c4entry2]) = .ok (some c4entry2) ∧
    extractNumeric (.dict [("mean", PyVal.num 20)]) = some 20 ∧
    some (20 : Rat) ≠ some (10 : Rat) := by
  refine ⟨?_, depthTol_eq, ?_, rfl, rfl, rfl, by simp⟩
  · intro t p
    rw [nearDepth_eq]
    exact decide_eq_true_iff
  · intro ds d h
    cases ds with
    | nil => rw [scanPrefs_nil PREFERRED_DEPTHS] at h; simp at h
    | cons x xs =>
      have ht : pyTruthy (.list (x :: xs)) = true := by simp [pyTruthy]
      simp [pickDepthEntry, ht, pyIter, h, exceptBindOk]

/-- Claim C4 witness: the general preferred-scan property applied at the
spec's concrete example. -/
theorem c4_selection_witness :
    (nearDepth 0 0 = true ↔ ratAbs ((0 : Rat) - 0) < depthTol) ∧
    pickDepthEntry (.list [c4entry1, c4entry2]) = .ok (some c4entry2) :=
  ⟨c4_selection.1 0 0, c4_selection.2.2.1 [c4entry1, c4entry2] c4entry2 rfl⟩

/-- Claim C5 counterexample: on a unit descriptor carrying both
target_units = "a" and mapped_units = "b", `_extract_unit` returns "b" —
the mapped-units field wins, not the target-units field as claimed. -/
theorem c5_counterexample :
    extractUnit (.dict [("unit_measure",
        .dict [("target_units", .str "a"), ("mapped_units", .str "b")])]) =
      .ok (.str "b") ∧
    PyVal.str "b" ≠ PyVal.str "a" :=
  ⟨rfl, by simp⟩

/-- Claim C5 (amended): unit selection prefers the mapped-units field, then
the target-units field, then the generic unit field (a falsy value such as
an empty string is skipped like an absent one), and is absent when none is
present. -/
theorem c5_amended (kvs : List (String × PyVal)) :
    extractUnit (PyVal.dict [("unit_measure", PyVal.dict kvs)]) = .ok (
      if pyTruthy (mgetU kvs "mapped_units") then mgetU kvs "mapped_units"
      else if pyTruthy (mgetU kvs "target_units") then mgetU kvs "target_units"
      else mgetU kvs "unit") := by
  cases kvs with
  | nil => rfl
  | cons kv rest =>
    have h0 : pyGet (.dict [("unit_measure", .dict (kv :: rest))]) "unit_measure" =
        .ok (.dict (kv :: rest)) := by simp [pyGet, pyGetD, dictGet]
    have h1 : pyTruthy (.dict (kv :: rest)) = true := by simp [pyTruthy]
    simp only [extractUnit, h0, exceptBindOk, h1, if_true, pyGet_dict]
    cases hm : pyTruthy (mgetU (kv :: rest) "mapped_units") <;>
      cases htg : pyTruthy (mgetU (kv :: rest) "target_units") <;>
        simp [hm, htg, exceptBindOk]

/-- Claim C6: statistic extraction tries the preferred names mean, Q0.5,
median, Q0.05, Q0.95 in that fixed order, returning the first present
non-null convertible entry, and otherwise falls back to the first non-null
convertible entry in stored order; on {"Q0.05": 3.1, "mean": null} it
returns 3.1 without faulting. -/
theorem c6_extraction :
    preferKeys = ["mean", "Q0.5", "median", "Q0.05", "Q0.95"] ∧
    extractNumeric (.dict [("Q0.05", .num (31/10)), ("mean", PyVal.none)]) = some (31/10) ∧
    (∀ kvs v q, dictGet kvs "mean" = some v → tryFloat v = some q →
      extractNumeric (.dict kvs) = some q) ∧
    (∀ kvs, (∀ k ∈ preferKeys, ∀ v, dictGet kvs k = some v → tryFloat v = Option.none) →
      extractNumeric (.dict kvs) = fallbackScan kvs) := by
  refine ⟨rfl, rfl, ?_, ?_⟩
  · intro kvs v q hg hv
    have hn : pyIsNone v = false := by
      cases v with
      | none => simp [tryFloat] at hv
      | bool b => rfl
      | num q2 => rfl
      | str s => rfl
      | list xs => rfl
      | dict kvs2 => rfl
    simp [extractNumeric, preferKeys, preferScan, hg, hn, hv]
  · intro kvs h
    simp [extractNumeric, preferScan_none preferKeys kvs h]

/-- Claim C6 witness: the preferred-order property at a concrete mean entry
and the fallback property on a set with no preferred key present. -/
theorem c6_extraction_witness :
    extractNumeric (.dict [("mean", .num 7)]) = some 7 ∧
    extractNumeric (.dict [("zzz", .num 4)]) = fallbackScan [("zzz", .num 4)] :=
  ⟨c6_extraction.2.2.1 [("mean", .num 7)] (.num 7) 7 rfl rfl,
   c6_extraction.2.2.2 [("zzz", .num 4)] (by
      intro k hk v hv
      simp only [preferKeys, List.mem_cons, List.not_mem_nil, or_false] at hk
      rcases hk with rfl | rfl | rfl | rfl | rfl <;> simp [dictGet] at hv)⟩

/-- Claim C7 counterexample: a depth entry whose top cannot be read at all
(its "range" field is a truthy non-mapping) makes selection raise an
uncaught AttributeError instead of returning the first entry of the
collection. -/
theorem c7_counterexample :
    pickDepthEntry (.list [.dict [("range", .num 1)]]) = .error .attributeError ∧
    Except.error PyErr.attributeError ≠
      (Except.ok (some (PyVal.dict [("range", PyVal.num 1)])) :
        Except PyErr (Option PyVal)) :=
  ⟨rfl, by simp⟩

/-- Claim C7 (amended): when no preferred pair matches and every entry's
top is readable, selection takes the first entry whose key (structured top,
or the sentinel 9999 when the range is absent or unconvertible) is
smallest; an entry whose top access raises makes selection raise instead —
the original-order fallback branch is unreachable. -/
theorem c7_amended :
    (∀ ds keyed, scanPrefs PREFERRED_DEPTHS ds = .ok Option.none →
      computeKeys ds = .ok keyed →
      pickDepthEntry (.list ds) = .ok ((firstMinKey keyed).map Prod.snd)) ∧
    (∀ l p, firstMinKey l = some p → p ∈ l ∧ ∀ q ∈ l, p.1 ≤ q.1) ∧
    (∀ ds e, scanPrefs PREFERRED_DEPTHS ds = .error e →
      pickDepthEntry (.list ds) = .error e) := by
  refine ⟨?_, fun l p h => firstMinKey_min l p h, ?_⟩
  · intro ds keyed h1 h2
    cases ds with
    | nil =>
      simp [computeKeys] at h2
      rw [h2]
      rfl
    | cons x xs =>
      obtain ⟨k, ks, hkd⟩ := computeKeys_cons x xs keyed h2
      have ht : pyTruthy (.list (x :: xs)) = true := by simp [pyTruthy]
      simp only [pickDepthEntry, ht, Bool.not_true, Bool.false_eq_true, if_false]
      simp only [pyIter, exceptBindOk, h1, h2]
      rw [sortKeyed_head]
      cases hf : firstMinKey keyed with
      | none => rw [hkd] at hf; simp [firstMinKey] at hf
      | some pm => simp
  · intro ds e h
    cases ds with
    | nil => rw [scanPrefs_nil PREFERRED_DEPTHS] at h; simp at h
    | cons x xs =>
      have ht : pyTruthy (.list (x :: xs)) = true := by simp [pyTruthy]
      simp [pickDepthEntry, ht, pyIter, h, exceptBindOk, exceptBindErr]

/-- Claim C7 witness: the smallest-top fallback on two entries with
structured tops 50 and 40 (no preferred match), the first-minimum
membership fact, and the raising behavior on an unreadable entry. -/
theorem c7_amended_witness :
    pickDepthEntry (.list [c7entryA, c7entryB]) =
      .ok ((firstMinKey [(50, c7entryA), (40, c7entryB)]).map Prod.snd) ∧
    ((40 : Rat), c7entryB) ∈ [((50 : Rat), c7entryA), ((40 : Rat), c7entryB)] ∧
    pickDepthEntry (.list [PyVal.dict [("range", PyVal.num 1)]]) =
      .error PyErr.attributeError :=
  ⟨c7_amended.1 [c7entryA, c7entryB] [(50, c7entryA), (40, c7entryB)] rfl rfl,
   (c7_amended.2.1 [(50, c7entryA), (40, c7entryB)] (40, c7entryB) rfl).1,
   c7_amended.2.2 [PyVal.dict [("range", PyVal.num 1)]] PyErr.attributeError rfl⟩

/-- Claim C8 counterexample: even on a network where every request fully
succeeds, the orchestrator issues seven separate single-property requests —
there is no batched request covering all property codes, and the
per-property requests are not a fallback triggered by a failed batch. -/
theorem c8_counterexample :
    (fetchSoilDataAll netGood 0 0).1 =
      .ok (PROPERTIES.map (fun p => (p, ⟨some 150, .str "dg/kg", goodLayer⟩)),
        Option.none) ∧
    (fetchSoilDataAll netGood 0 0).2 = PROPERTIES.map (mkRequest 0 0) ∧
    ((fetchSoilDataAll netGood 0 0).2.map Request.property = PROPERTIES) ∧
    (fetchSoilDataAll netGood 0 0).2.length = 7 ∧ (7 : Nat) ≠ 1 :=
  ⟨rfl, rfl, rfl, rfl, by decide⟩

/-- Claim C8 (amended): the orchestrator never batches: for every network
behavior it issues one request per property code in the fixed PROPERTIES
order — a prefix of that sequence if a call raises, and exactly the full
sequence whenever it completes normally. -/
theorem c8_amended (net : Request → HttpResult) (lat lon : Rat) :
    ((fetchSoilDataAll net lat lon).2 <+: PROPERTIES.map (mkRequest lat lon)) ∧
    (∀ res, (fetchSoilDataAll net lat lon).1 = .ok res →
      (fetchSoilDataAll net lat lon).2 = PROPERTIES.map (mkRequest lat lon)) := by
  have h2 : (fetchSoilDataAll net lat lon).2 = (fetchLoop net lat lon PROPERTIES).2 := by
    rcases hl : fetchLoop net lat lon PROPERTIES with ⟨r, tr⟩
    cases r <;> simp [fetchSoilDataAll, hl]
  constructor
  · rw [h2]
    exact fetchLoop_trace_prefix net lat lon PROPERTIES
  · intro res h
    rcases hl : fetchLoop net lat lon PROPERTIES with ⟨r, tr⟩
    cases r with
    | ok o =>
      have h1 : (fetchLoop net lat lon PROPERTIES).1 = .ok o := by rw [hl]
      rw [h2]
      exact fetchLoop_trace_ok net lat lon PROPERTIES o h1
    | error e => simp [fetchSoilDataAll, hl] at h

/-- Claim C8 witness: the amended statement applied to the fully
successful network. -/
theorem c8_amended_witness :
    ((fetchSoilDataAll netGood 0 0).2 <+: PROPERTIES.map (mkRequest 0 0)) ∧
    (fetchSoilDataAll netGood 0 0).2 = PROPERTIES.map (mkRequest 0 0) :=
  ⟨(c8_amended netGood 0 0).1,
   (c8_amended netGood 0 0).2
     (PROPERTIES.map (fun p => (p, ⟨some 150, .str "dg/kg", goodLayer⟩)), Option.none) rfl⟩

/-- Claim C9: layer location is shape-insensitive — a dict item carrying
name = code inside a list-shaped collection and the same object under the
code key of a mapping-shaped collection locate identically; an
unrecognized collection shape or a missing match yields the absent marker,
never an error. -/
theorem c9_locate :
    (∀ prop kvs, dictGet kvs "name" = some (.str prop) →
      locateLayer (.list [.dict kvs]) prop = .dict kvs ∧
      locateLayer (.dict [(prop, .dict kvs)]) prop = .dict kvs) ∧
    (∀ prop v, isMapV v = false → isListV v = false → locateLayer v prop = PyVal.none) ∧
    (∀ prop items, (∀ kvs, PyVal.dict kvs ∈ items → dictGet kvs "name" ≠ some (.str prop)) →
      locateLayer (.list items) prop = PyVal.none) ∧
    (∀ prop kvs, dictGet kvs prop = Option.none → locateLayer (.dict kvs) prop = PyVal.none) := by
  refine ⟨?_, ?_, ?_, ?_⟩
  · intro prop kvs h
    constructor
    · simp [locateLayer, locateScan, h]
    · simp [locateLayer, dictGet]
  · intro prop v h1 h2
    cases v <;> simp_all [isMapV, isListV, locateLayer]
  · intro prop items h
    exact locateScan_none prop items h
  · intro prop kvs h
    simp [locateLayer, h]

/-- Claim C9 witness: both shapes at a concrete soc layer, and the absent
outcomes for a numeric collection, a list without a match, and an empty
mapping. -/
theorem c9_locate_witness :
    (locateLayer (.list [.dict c9obj]) "soc" = .dict c9obj ∧
     locateLayer (.dict [("soc", .dict c9obj)]) "soc" = .dict c9obj) ∧
    locateLayer (.num 3) "soc" = PyVal.none ∧
    locateLayer (.list [.str "x"]) "soc" = PyVal.none ∧
    locateLayer (.dict []) "soc" = PyVal.none :=
  ⟨c9_locate.1 "soc" c9obj rfl,
   c9_locate.2.1 "soc" (.num 3) rfl rfl,
   c9_locate.2.2.1 "soc" [.str "x"] (by intro kvs hk; simp at hk),
   c9_locate.2.2.2 "soc" [] rfl⟩

/-- Claim C10: the aggregate error component returned by
`fetch_soil_data_all` is the hard-coded None of line 178 — whenever the
orchestrator returns a tuple, its error component is the absent marker,
for every network behavior and failure pattern. -/
theorem c10_no_aggregate_error (net : Request → HttpResult) (lat lon : Rat)
    (out : List (String × PropRecord)) (e : Option String)
    (h : (fetchSoilDataAll net lat lon).1 = .ok (out, e)) : e = Option.none := by
  rcases hl : fetchLoop net lat lon PROPERTIES with ⟨r, tr⟩
  cases r with
  | ok o =>
    simp [fetchSoilDataAll, hl] at h
    exact h.2.symm
  | error e2 => simp [fetchSoilDataAll, hl] at h

/-- Claim C10 witness: the aggregate error component under an
all-failures network, read off through the theorem. -/
theorem c10_no_aggregate_error_witness : (Option.none : Option String) = Option.none :=
  c10_no_aggregate_error netExn 0 0
    (PROPERTIES.map (fun p =>
      (p, ⟨Option.none, PyVal.none, .dict [("error", .str "boom")]⟩)))
    Option.none rfl
